import Mathlib

/-! Shallow embedding of src/app.py: a Flask application with a single route
(GET /api) whose handler returns a static JSON payload, and a main guard
that runs the server on host 0.0.0.0, port 5000. -/

/-- An HTTP request as seen by the application: method, path, headers,
query parameters and body. -/
structure Request where
  method : String
  path : String
  headers : List (String × String)
  query : List (String × String)
  body : String
deriving DecidableEq, Repr

/-- An HTTP response: status code, content type, body, and the optional
Allow header that the framework sets on 405 and OPTIONS responses. -/
structure Response where
  status : Nat
  contentType : String
  body : String
  allow : Option (List String)
deriving DecidableEq, Repr

/-- JSON rendering of a string (the strings this program serializes need
no escaping). -/
def jsonString (s : String) : String := "\"" ++ s ++ "\""

/-- json.dumps on a flat string-valued dict, with the default separators
used by Flask's JSON provider. -/
def dumps (d : List (String × String)) : String :=
  "\x7b" ++ String.intercalate ", "
    (d.map (fun kv => jsonString kv.1 ++ ": " ++ jsonString kv.2)) ++ "\x7d"

/-- The dict literal in get_data: the mapping from message to Hello, Docker!. -/
def payloadDict : List (String × String) := [("message", "Hello, Docker!")]

/-- Flask's jsonify: serializes the dict to JSON, appends a newline, and
produces a 200 response with content type application/json. -/
def jsonify (d : List (String × String)) : Response :=
  { status := 200, contentType := "application/json",
    body := dumps d ++ "\n", allow := none }

/-- The handler get_data from src/app.py: returns jsonify of the constant
dict. -/
def get_data : Response := jsonify payloadDict

/-- The methods Flask serves for the rule /api registered with
methods equal to the singleton list GET: Flask automatically adds HEAD and
OPTIONS to a route unless told otherwise. -/
def allowedMethods : List String := ["GET", "HEAD", "OPTIONS"]

/-- The framework's default 404 error page body. -/
def notFoundBody : String :=
  "<!doctype html><title>404 Not Found</title><h1>Not Found</h1>"

/-- The framework's default 405 error page body. -/
def methodNotAllowedBody : String :=
  "<!doctype html><title>405 Method Not Allowed</title><h1>Method Not Allowed</h1>"

/-- Request dispatch for the application: the single rule /api serves GET via
get_data, HEAD with the same status and headers but an empty body, and
OPTIONS with the framework's automatic response; any other method on /api is
405 and any other path is 404 (Flask's default routing behavior for this
route table). -/
def dispatch (r : Request) : Response :=
  if r.path = "/api" then
    if r.method = "GET" then get_data
    else if r.method = "HEAD" then { get_data with body := "" }
    else if r.method = "OPTIONS" then
      { status := 200, contentType := "text/html; charset=utf-8",
        body := "", allow := some allowedMethods }
    else
      { status := 405, contentType := "text/html; charset=utf-8",
        body := methodNotAllowedBody, allow := some allowedMethods }
  else
    { status := 404, contentType := "text/html; charset=utf-8",
      body := notFoundBody, allow := none }

/-- The module-level application object: its observable state is the route
table registered at module load (rule and the methods written in the
source). -/
structure AppState where
  routes : List (String × List String)
deriving DecidableEq, Repr

/-- The app after module load: Flask applied to the module name, plus the one
route registration. -/
def initialApp : AppState := { routes := [("/api", ["GET"])] }

/-- Handling one request at the program level: produces the response and the
resulting program state; the handler performs no mutation and no side
effect, so the state passes through unchanged. -/
def handleRequest (s : AppState) (r : Request) : Response × AppState :=
  (dispatch r, s)

/-- The run configuration passed to app.run under the main guard. -/
structure RunConfig where
  host : String
  port : Nat
deriving DecidableEq, Repr

/-- The main guard of src/app.py: app.run with host 0.0.0.0 and port 5000 is
invoked iff the module name is __main__; returns the run configuration
used, if any. -/
def moduleMain (name : String) : Option RunConfig :=
  if name = "__main__" then some { host := "0.0.0.0", port := 5000 } else none

/-- Outcome of executing the module, at the process level. -/
inductive ProcessResult where
  | noServer
  | listening (host : String) (port : Nat)
  | failed (exitCode : Nat) (stderrMsg : String)
deriving DecidableEq, Repr

/-- Modelled from the spec: the bind step inside app.run is framework code
not under src/. Per the spec, a successful bind leaves the process
listening on the configured host and port, and a binding failure is
surfaced on standard error and terminates the process with a non-zero exit
status, with no recovery or retry. -/
def runServer (cfg : RunConfig) (bindOk : Bool) : ProcessResult :=
  if bindOk then ProcessResult.listening cfg.host cfg.port
  else ProcessResult.failed 1 "OSError: address already in use"

/-- Executing the module: load (app construction and route registration),
then, only under the main guard, run the server. -/
def moduleRun (name : String) (bindOk : Bool) : ProcessResult :=
  match moduleMain name with
  | some cfg => runServer cfg bindOk
  | none => ProcessResult.noServer

/-- A concrete plain GET request to /api. -/
def sampleGet : Request :=
  { method := "GET", path := "/api", headers := [], query := [], body := "" }

/-- A concrete GET request to /api with headers, query parameters and a
body. -/
def sampleGetExtra : Request :=
  { method := "GET", path := "/api",
    headers := [("X-Extra", "1"), ("Accept", "text/plain")],
    query := [("q", "abc")], body := "ignored" }

/-- A concrete POST request to /api. -/
def samplePost : Request :=
  { method := "POST", path := "/api", headers := [], query := [], body := "" }

/-- A concrete HEAD request to /api. -/
def sampleHead : Request :=
  { method := "HEAD", path := "/api", headers := [], query := [], body := "" }

/-- C1: every request with method GET and path /api gets status 200 and a
body that is the JSON serialization of the mapping from message to
Hello, Docker!. -/
theorem C1_get_api_status_and_body (r : Request)
    (hm : r.method = "GET") (hp : r.path = "/api") :
    (dispatch r).status = 200 ∧ (dispatch r).body = dumps payloadDict ++ "\n" := by
  simp [dispatch, hm, hp, get_data, jsonify]

/-- Witness for C1 at a concrete request. -/
theorem C1_witness :
    (dispatch sampleGet).status = 200 ∧
    (dispatch sampleGet).body = dumps payloadDict ++ "\n" :=
  C1_get_api_status_and_body sampleGet rfl rfl

/-- C2: every GET request to /api gets a response whose content type is
application/json. -/
theorem C2_content_type (r : Request)
    (hm : r.method = "GET") (hp : r.path = "/api") :
    (dispatch r).contentType = "application/json" := by
  simp [dispatch, hm, hp, get_data, jsonify]

/-- Witness for C2 at a concrete request. -/
theorem C2_witness : (dispatch sampleGet).contentType = "application/json" :=
  C2_content_type sampleGet rfl rfl

/-- C3: any two invocations of the GET /api handler, from any program
states, produce byte-for-byte identical bodies, and neither invocation
changes the program state. -/
theorem C3_pure_and_stable (s₁ s₂ : AppState) (r₁ r₂ : Request)
    (h₁m : r₁.method = "GET") (h₁p : r₁.path = "/api")
    (h₂m : r₂.method = "GET") (h₂p : r₂.path = "/api") :
    (handleRequest s₁ r₁).1.body = (handleRequest s₂ r₂).1.body ∧
    (handleRequest s₁ r₁).2 = s₁ ∧ (handleRequest s₂ r₂).2 = s₂ := by
  simp [handleRequest, dispatch, h₁m, h₁p, h₂m, h₂p]

/-- Witness for C3 at two concrete invocations. -/
theorem C3_witness :
    (handleRequest initialApp sampleGet).1.body =
      (handleRequest initialApp sampleGetExtra).1.body ∧
    (handleRequest initialApp sampleGet).2 = initialApp ∧
    (handleRequest initialApp sampleGetExtra).2 = initialApp :=
  C3_pure_and_stable initialApp initialApp sampleGet sampleGetExtra rfl rfl rfl rfl

/-- C4: a request with a path other than /api, or a request to /api with a
method other than GET, never yields the success payload with status 200;
moreover paths other than /api get the framework default 404, and methods
on /api outside the framework-served set get the framework default 405. -/
theorem C4_no_success_off_route (r : Request)
    (h : r.path ≠ "/api" ∨ r.method ≠ "GET") :
    ¬((dispatch r).status = 200 ∧ (dispatch r).body = dumps payloadDict ++ "\n") ∧
    (r.path ≠ "/api" → (dispatch r).status = 404) ∧
    (r.path = "/api" → r.method ∉ allowedMethods → (dispatch r).status = 405) := by
  by_cases hp : r.path = "/api"
  · rcases h with h | h
    · exact absurd hp h
    · by_cases hh : r.method = "HEAD"
      · refine ⟨?_, fun hnp => absurd hp hnp, fun _ hna => absurd ?_ hna⟩
        · simp [dispatch, hp, h, hh, get_data, jsonify, dumps, payloadDict]
          decide
        · simp [allowedMethods, hh]
      · by_cases ho : r.method = "OPTIONS"
        · refine ⟨?_, fun hnp => absurd hp hnp, fun _ hna => absurd ?_ hna⟩
          · simp [dispatch, hp, h, hh, ho, dumps, payloadDict]
            decide
          · simp [allowedMethods, ho]
        · refine ⟨?_, fun hnp => absurd hp hnp, fun _ _ => ?_⟩
          · simp [dispatch, hp, h, hh, ho]
          · simp [dispatch, hp, h, hh, ho]
  · refine ⟨?_, fun _ => ?_, fun hp2 => absurd hp2 hp⟩
    · simp [dispatch, hp]
    · simp [dispatch, hp]

/-- Witness for C4 at a concrete POST request to /api. -/
theorem C4_witness :
    (¬((dispatch samplePost).status = 200 ∧
        (dispatch samplePost).body = dumps payloadDict ++ "\n")) ∧
    (samplePost.path ≠ "/api" → (dispatch samplePost).status = 404) ∧
    (samplePost.path = "/api" → samplePost.method ∉ allowedMethods →
      (dispatch samplePost).status = 405) :=
  C4_no_success_off_route samplePost (Or.inr (by decide))

/-- C5: run as the main program with a successful bind, the process listens
on the wildcard address 0.0.0.0 at port 5000; the host and port are
hard-coded, since the only run configuration the module can ever produce is
exactly that one. -/
theorem C5_startup_binding :
    moduleRun "__main__" true = ProcessResult.listening "0.0.0.0" 5000 ∧
    moduleMain "__main__" = some { host := "0.0.0.0", port := 5000 } ∧
    ∀ name, moduleMain name = none ∨
      moduleMain name = some { host := "0.0.0.0", port := 5000 } := by
  refine ⟨rfl, rfl, fun name => ?_⟩
  by_cases h : name = "__main__" <;> simp [moduleMain, h]

/-- C6: a binding failure terminates the process with a non-zero exit status
and a non-empty message on standard error; the outcome is final, with no
retry. -/
theorem C6_bind_failure (cfg : RunConfig) :
    ∃ code msg, runServer cfg false = ProcessResult.failed code msg ∧
      code ≠ 0 ∧ msg ≠ "" := by
  exact ⟨1, "OSError: address already in use", rfl, by decide, by decide⟩

/-- C7: the response payload is a constant with no lifecycle: handling any
request leaves the program state unchanged, and the body of the success
response is always the serialization of the one fixed dict. -/
theorem C7_payload_constant (s : AppState) (r : Request) :
    (handleRequest s r).2 = s ∧ get_data.body = dumps payloadDict ++ "\n" :=
  ⟨rfl, rfl⟩

/-- C8: the GET /api response is independent of everything in the request
beyond method and path: two GET /api requests with different headers, query
parameters or bodies get equal responses. -/
theorem C8_request_independence (r₁ r₂ : Request)
    (h₁m : r₁.method = "GET") (h₁p : r₁.path = "/api")
    (h₂m : r₂.method = "GET") (h₂p : r₂.path = "/api") :
    dispatch r₁ = dispatch r₂ := by
  simp [dispatch, h₁m, h₁p, h₂m, h₂p]

/-- Witness for C8 at two concrete requests differing in headers, query and
body. -/
theorem C8_witness : dispatch sampleGet = dispatch sampleGetExtra :=
  C8_request_independence sampleGet sampleGetExtra rfl rfl rfl rfl

/-- C9: a HEAD request to /api is accepted with status 200 and an empty
body, since the framework serves HEAD for a route registered with the GET
method; so not every non-GET method on /api is rejected. -/
theorem C9_head_served (r : Request)
    (hm : r.method = "HEAD") (hp : r.path = "/api") :
    (dispatch r).status = 200 ∧ (dispatch r).body = "" ∧
    "HEAD" ∈ allowedMethods := by
  refine ⟨?_, ?_, by decide⟩ <;> simp [dispatch, hm, hp, get_data, jsonify]

/-- Witness for C9 at a concrete HEAD request. -/
theorem C9_witness :
    (dispatch sampleHead).status = 200 ∧ (dispatch sampleHead).body = "" ∧
    "HEAD" ∈ allowedMethods :=
  C9_head_served sampleHead rfl rfl

/-- C10: when the module is imported under any name other than __main__, the
server never binds or listens, whatever the bind outcome would have been:
the transition to listening happens only under the main guard. -/
theorem C10_main_guard (name : String) (bindOk : Bool)
    (h : name ≠ "__main__") :
    moduleRun name bindOk = ProcessResult.noServer := by
  simp [moduleRun, moduleMain, h]

/-- Witness for C10 at a concrete imported module name. -/
theorem C10_witness : moduleRun "app" true = ProcessResult.noServer :=
  C10_main_guard "app" true (by decide)
